import Mathlib

/-!
Verification development for the `liao-oauth` token broker.

The Python source is shallowly embedded: times are epoch seconds (`Int`),
database state is passed explicitly, the external HTTP calls of the OAuth
exchange client are parameters of the embedded functions, and exceptions
become `Except` values.  Fernet symmetric encryption is modelled
symbolically: a ciphertext is either the empty string (what `encrypt_str`
returns for a `None` plaintext) or a tagged value `Ciphertext.tok p` that
decrypts back to `p`; `Ciphertext.invalid` stands for any string that is
not a valid Fernet token.  This captures exactly the properties the store
relies on: `decrypt_str (encrypt_str p) = p`, empty / `NULL` values decrypt
to "absent", and invalid tokens decrypt to "absent".
-/

namespace LiaoOAuth

/-- Truthiness of a Python `Optional[str]`: `None` and `""` are falsy. -/
def strTruthy : Option String → Bool
  | none => false
  | some s => s ≠ ""

namespace Crypto

/-- Symbolic model of a Fernet ciphertext string as produced/consumed by
`app/services/crypto.py`.  `empty` is the string `""`; `tok p` is a valid
Fernet token whose plaintext is `p`; `invalid r` is any other string, on
which decryption raises `InvalidToken`. -/
inductive Ciphertext where
  | empty : Ciphertext
  | tok (plain : String) : Ciphertext
  | invalid (raw : String) : Ciphertext
deriving DecidableEq, Repr

/-- Embeds `encrypt_str`: a `None` plaintext yields `""`, otherwise a
Fernet token encrypting the plaintext. -/
def encrypt_str : Option String → Ciphertext
  | none => .empty
  | some s => .tok s

/-- Embeds `decrypt_str` applied to a nullable column value: `None` and
`""` give `None` (`if not token: return None`), a valid token gives its
plaintext, and an invalid token gives `None` (the `InvalidToken` catch). -/
def decrypt_str : Option Ciphertext → Option String
  | none => none
  | some .empty => none
  | some (.tok s) => some s
  | some (.invalid _) => none

/-- Python truthiness of a nullable ciphertext column
(`if not row.refresh_token_enc`): `NULL` and `""` are falsy. -/
def ctFalsy : Option Ciphertext → Bool
  | none => true
  | some .empty => true
  | some (.tok _) => false
  | some (.invalid _) => false

end Crypto

open Crypto

/-- Embeds the `OAuthToken` row of `app/db/models.py` restricted to the
columns the verified operations read or write, with the declared
nullability: `access_token_enc` is `nullable=False` (every persisted row
holds a ciphertext string there), while `refresh_token_enc` and
`expires_at` are nullable.  `scopes_json` stores the JSON-encoded list of
scope strings; since `json.loads (json.dumps l) = l`, it is modelled
directly as the list.  The audit timestamps are not part of any claim and
are omitted. -/
structure OAuthToken where
  user_id : String
  access_token_enc : Ciphertext
  refresh_token_enc : Option Ciphertext
  expires_at : Option Int
  scopes_json : List String
deriving DecidableEq, Repr

/-- Embeds `db.query(OAuthToken).filter(OAuthToken.user_id == user_id).one_or_none()`.
The table has at most one row per `user_id`, so the first match is the row. -/
def queryByUser (db : List OAuthToken) (user_id : String) : Option OAuthToken :=
  db.find? (fun r => r.user_id == user_id)

namespace Tokens

/-- Embeds Python's `scope.split() if scope else []`: split a space-delimited
scope string on whitespace, dropping empty pieces; falsy (`None`/`""`)
values give the empty list. -/
def splitScopes (scope : Option String) : List String :=
  match scope with
  | none => []
  | some s => if s = "" then [] else (s.split Char.isWhitespace).filter (fun p => p ≠ "")

/-- Embeds `upsert_tokens` from `app/services/tokens.py`, returning the
updated table.  On insert, a falsy `refresh_token` is stored as `""`; on
update, the refresh-token ciphertext is replaced only when the new
`refresh_token` is truthy, otherwise the stored one is kept. -/
def upsert_tokens (db : List OAuthToken) (user_id : String)
    (access_token : Option String) (refresh_token : Option String)
    (expires_at : Option Int) (scope : Option String) : List OAuthToken :=
  let scopes_json := splitScopes scope
  match queryByUser db user_id with
  | none =>
      db ++ [{ user_id := user_id
               access_token_enc := encrypt_str access_token
               refresh_token_enc :=
                 some (if strTruthy refresh_token then encrypt_str refresh_token else .empty)
               expires_at := expires_at
               scopes_json := scopes_json }]
  | some _ =>
      db.map fun r =>
        if r.user_id = user_id then
          { r with
            access_token_enc := encrypt_str access_token
            refresh_token_enc :=
              if strTruthy refresh_token then some (encrypt_str refresh_token)
              else r.refresh_token_enc
            expires_at := expires_at
            scopes_json := scopes_json }
        else r

/-- Error raised by the persistence layer when a write violates the
declared schema (surfaced by SQLAlchemy as `IntegrityError` at
`db.commit()`). -/
inductive DbError where
  | integrityError : DbError
deriving DecidableEq, Repr

/-- Embeds `clear_tokens` from `app/services/tokens.py`.  When no row
exists it returns `false` and leaves the table unchanged.  When a row
exists, the source assigns `None` to `access_token_enc`,
`refresh_token_enc` and `expires_at` and commits; `access_token_enc` is
declared `nullable=False` in `app/db/models.py` and the table is created
with that constraint (`Base.metadata.create_all`), so the UPDATE violates
NOT NULL and `db.commit()` raises `IntegrityError` before the function can
return `true` — the failed transaction persists no blanked row. -/
def clear_tokens (db : List OAuthToken) (user_id : String) :
    Except DbError (List OAuthToken × Bool) :=
  match queryByUser db user_id with
  | none => .ok (db, false)
  | some _ => .error .integrityError

end Tokens

namespace GoogleOAuth

/-- Relevant fields of the JSON body `j` of a successful (HTTP 200) token
endpoint response, as read by `app/services/google_oauth.py`.  Absent keys
are `none`; `expires_in` is read with `j.get("expires_in", 0) or 0`, so
absent, `null` and `0` all coerce to `0`.  Fields the embedded claims never
touch (`token_type`, `raw`) are omitted. -/
structure TokenJson where
  access_token : Option String
  refresh_token : Option String
  expires_in : Option Int
  scope : Option String
deriving DecidableEq, Repr

/-- Outcome of the single HTTP POST to the token endpoint, supplied as a
parameter of the embedded client functions: a 200 response with JSON body,
or a non-200 status. -/
inductive HttpOutcome where
  | ok (j : TokenJson) : HttpOutcome
  | err (status : Int) : HttpOutcome
deriving DecidableEq, Repr

/-- Errors raised by the embedded OAuth exchange client: `valueError` for
an empty refresh token, `runtimeError` for missing client configuration or
a non-200 upstream response. -/
inductive OAuthError where
  | valueError : OAuthError
  | runtimeError : OAuthError
deriving DecidableEq, Repr

/-- Embeds the shared expiry computation
`datetime.now(utc) + timedelta(seconds=max(0, expires_in - 30))`
of `exchange_code_for_tokens` and `refresh_access_token`. -/
def computeExpiresAt (now : Int) (expires_in : Int) : Int :=
  now + max 0 (expires_in - 30)

/-- Result of a successful `refresh_access_token` call (the dict it
returns, minus the unclaimed `token_type`/`raw` fields). -/
structure RefreshedTokens where
  access_token : Option String
  expires_at : Int
  scope : Option String
deriving DecidableEq, Repr

/-- Embeds `refresh_access_token` from `app/services/google_oauth.py`.
`clientConfigured` models `_ensure_client_config` (the presence of the
static client id/secret settings); `outcome` is the HTTP round trip. -/
def refresh_access_token (clientConfigured : Bool) (refresh_token : Option String)
    (outcome : HttpOutcome) (now : Int) : Except OAuthError RefreshedTokens :=
  if !clientConfigured then .error .runtimeError
  else if !strTruthy refresh_token then .error .valueError
  else
    match outcome with
    | .err _ => .error .runtimeError
    | .ok j =>
        .ok { access_token := j.access_token
              expires_at := computeExpiresAt now (j.expires_in.getD 0)
              scope := j.scope }

/-- Result of a successful `exchange_code_for_tokens` call (minus the
unclaimed `token_type`/`raw` fields). -/
structure ExchangedTokens where
  access_token : Option String
  refresh_token : Option String
  expires_at : Int
  scope : Option String
deriving DecidableEq, Repr

/-- Embeds `exchange_code_for_tokens` from `app/services/google_oauth.py`.
`redirectHostAllowed` models `_validate_redirect_host` on the fixed
`redirect_uri`; the authorization `code` itself only travels to the
server, so it is not a parameter of the embedding. -/
def exchange_code_for_tokens (clientConfigured : Bool) (redirectHostAllowed : Bool)
    (outcome : HttpOutcome) (now : Int) : Except OAuthError ExchangedTokens :=
  if !clientConfigured then .error .runtimeError
  else if !redirectHostAllowed then .error .valueError
  else
    match outcome with
    | .err _ => .error .runtimeError
    | .ok j =>
        .ok { access_token := j.access_token
              refresh_token := j.refresh_token
              expires_at := computeExpiresAt now (j.expires_in.getD 0)
              scope := j.scope }

end GoogleOAuth

namespace AccessTokens

open Tokens GoogleOAuth

/-- Exceptions escaping `ensure_access_token`: its own `TokenNotFound` and
`ReconnectRequired`, or an error propagated from the exchange client. -/
inductive EnsureError where
  | tokenNotFound : EnsureError
  | reconnectRequired : EnsureError
  | upstream (e : OAuthError) : EnsureError
deriving DecidableEq, Repr

/-- Return value of `ensure_access_token`: the dict
`{"access_token", "expires_at", "scopes"}`.  `access_token` is `Option`
because `decrypt_str` may yield `None` on the cached path and the JSON
`access_token` key may be absent on the refresh path. -/
structure EnsureResult where
  access_token : Option String
  expires_at : Option Int
  scopes : List String
deriving DecidableEq, Repr

/-- Embeds `_scopes_list` applied to the raw `scope` value of a token
response on the refresh path of `ensure_access_token`.  The source runs
`json.loads` on it; a Google scope value is a space-delimited string of
scope URLs (never a JSON document), so the `except` branch returns `[]`,
and a falsy value returns `[]` directly.  Modelled as the constant `[]`
for every raw scope value. -/
def scopesOfRawScope (_scope : Option String) : List String := []

/-- Embeds `ensure_access_token` from `app/services/access_tokens.py`.
Clock (`now`), client configuration and the refresh HTTP outcome are
explicit parameters; the result carries the updated table alongside the
returned dict.  Timestamps are already UTC in the model, so the
timezone-normalisation of `row.expires_at` is the identity. -/
def ensure_access_token (db : List OAuthToken) (user_id : String) (now : Int)
    (clientConfigured : Bool) (outcome : HttpOutcome) :
    Except EnsureError (List OAuthToken × EnsureResult) :=
  match queryByUser db user_id with
  | none => .error .tokenNotFound
  | some row =>
    -- skew = 30 seconds; no expiry forces the refresh path
    let needs_refresh : Bool :=
      match row.expires_at with
      | none => true
      | some exp => decide (exp - now ≤ 30)
    if needs_refresh then
      if Crypto.ctFalsy row.refresh_token_enc then .error .reconnectRequired
      else
        let refresh_token := Crypto.decrypt_str row.refresh_token_enc
        match refresh_access_token clientConfigured refresh_token outcome now with
        | .error e => .error (.upstream e)
        | .ok new =>
            let db' := upsert_tokens db user_id new.access_token refresh_token
              (some new.expires_at) new.scope
            .ok (db', { access_token := new.access_token
                        expires_at := some new.expires_at
                        scopes := scopesOfRawScope new.scope })
    else
      .ok (db, { access_token := Crypto.decrypt_str (some row.access_token_enc)
                 expires_at := row.expires_at
                 scopes := row.scopes_json })

end AccessTokens

namespace RateLimit

/-- Key of a rate-limit counter: the string tuple `("key", api_key)` or
`("user", api_key, user_id)` of `app/security/ratelimit.py`, modelled as a
list of strings. -/
abbrev RateKey := List String

/-- The in-process `_counters` dict mapping keys to
`(window_start_epoch, count)` pairs, modelled as an association list. -/
abbrev Counters := List (RateKey × Int × Int)

/-- Dict lookup `_counters.get(key)`. -/
def getCounter (cs : Counters) (key : RateKey) : Option (Int × Int) :=
  (cs.find? (fun e => e.1 == key)).map (fun e => e.2)

/-- Dict assignment `_counters[key] = v`: replaces the existing binding or
inserts a new one. -/
def setCounter (cs : Counters) (key : RateKey) (v : Int × Int) : Counters :=
  match cs with
  | [] => [(key, v)]
  | e :: rest => if e.1 = key then (key, v) :: rest else e :: setCounter rest key v

/-- Embeds `_bump` from `app/security/ratelimit.py`.  Returns the updated
counter table and `none` when the request is admitted, or `some r` when it
raises the 429 `rate_limit_exceeded` response whose `Retry-After` header
is `r` (already clamped with `max(0, ...)`). -/
def bump (cs : Counters) (key : RateKey) (max_requests : Int)
    (window_seconds : Int) (now : Int) : Counters × Option Int :=
  let window := now - now % window_seconds
  let p := (getCounter cs key).getD (window, 0)
  let start := if p.1 ≠ window then window else p.1
  let count := (if p.1 ≠ window then 0 else p.2) + 1
  let cs' := setCounter cs key (start, count)
  let remaining := max_requests - count
  if remaining < 0 then
    let retry_after := start + window_seconds - now
    (cs', some (max 0 retry_after))
  else
    (cs', none)

end RateLimit

namespace State

/-- Payload object written into a state token by `create_state`:
`{"u": user_id, "p": "google_oauth", "iat": now, "exp": now+ttl, "n": nonce}`. -/
structure StatePayload where
  u : String
  p : String
  iat : Int
  exp : Int
  n : String
deriving DecidableEq, Repr

/-- Symbolic model of one dot-separated base64url segment of a state
token.  `enc pl` is `b64e(json.dumps(payload))` for the well-formed
payload object `pl` — the only strings whose base64url-decode parses as a
payload JSON object; `sig key h p` is `b64e(HMAC-SHA256(key, h || "." || p))`
— HMAC is a deterministic function of the key and message, and within the
reachable values of this system distinct constructor arguments denote
distinct strings; `raw s` is any other segment (the header segment, junk,
etc.), which never decodes to a payload object. -/
inductive Seg where
  | enc (pl : StatePayload) : Seg
  | sig (key : String) (h : Seg) (p : Seg) : Seg
  | raw (s : String) : Seg
deriving DecidableEq, Repr

/-- The fixed header JSON `json.dumps({"alg": "HS256", "typ": "STATE"})`
whose base64url encoding is the first segment of every created token. -/
def headerJson : String := "\x7b\"alg\":\"HS256\",\"typ\":\"STATE\"\x7d"

/-- Base64url-decode + `json.loads` of a segment, yielding the payload
object exactly when the segment is a payload encoding. -/
def decPayload : Seg → Option StatePayload
  | .enc pl => some pl
  | _ => none

/-- Errors of `create_state` / `verify_state` (the source raises a single
`StateError` class; the constructor records which message). -/
inductive StateError where
  | userIdRequired : StateError
  | malformed : StateError
  | invalidSignature : StateError
  | invalidPayload : StateError
  | unexpectedPurpose : StateError
  | issuedInFuture : StateError
  | expired : StateError
  | missingUserId : StateError
deriving DecidableEq, Repr

/-- The `ttl_seconds` argument as Python receives it: a value on which
`int(...)` succeeds (giving `n`), or one on which it raises (covered by
the `except` branch). -/
inductive TtlArg where
  | int (n : Int) : TtlArg
  | nonCoercible : TtlArg
deriving DecidableEq, Repr

/-- Embeds the TTL-hardening block of `create_state`: coerce with
`int(...)`, fall back to `300` on failure, then clamp to a 30-second
minimum. -/
def hardenedTtl (ttl_seconds : TtlArg) : Int :=
  let ttl := match ttl_seconds with
    | .int n => n
    | .nonCoercible => 300
  if ttl < 30 then 30 else ttl

/-- Embeds `create_state` from `app/services/state.py`.  The signing key,
the clock and the random nonce are explicit parameters; the returned token
is the list of its three dot-separated segments. -/
def create_state (key : String) (user_id : String) (ttl_seconds : TtlArg)
    (now : Int) (nonce : String) : Except StateError (List Seg) :=
  if user_id = "" then .error .userIdRequired
  else
    let ttl := hardenedTtl ttl_seconds
    let payload : StatePayload :=
      { u := user_id, p := "google_oauth", iat := now, exp := now + ttl, n := nonce }
    let h := Seg.raw headerJson
    let p := Seg.enc payload
    let s := Seg.sig key h p
    .ok [h, p, s]

/-- Embeds `verify_state` from `app/services/state.py`.  The token is its
list of dot-separated segments (base64url alphabets contain no dot, so the
split recovers exactly the segments); a count other than three is the
`Malformed state` error.  In the model every decodable payload carries
integer `iat`/`exp` fields, so the `Invalid exp/iat` branch of the source
is unreachable and not represented. -/
def verify_state (key : String) (token : List Seg) (now : Int)
    (leeway_seconds : Int) : Except StateError StatePayload :=
  match token with
  | [h, p, s] =>
    let expected := Seg.sig key h p
    if s ≠ expected then .error .invalidSignature
    else
      match decPayload p with
      | none => .error .invalidPayload
      | some payload =>
        if payload.p ≠ "google_oauth" then .error .unexpectedPurpose
        else if payload.iat - now > leeway_seconds then .error .issuedInFuture
        else if now - payload.exp > leeway_seconds then .error .expired
        else if payload.u = "" then .error .missingUserId
        else .ok payload
  | _ => .error .malformed

end State

/-! Helper lemmas shared by the claim theorems. -/

/-- A found row matches the queried user id. -/
theorem queryByUser_user_id {db : List OAuthToken} {uid : String} {row : OAuthToken}
    (h : queryByUser db uid = some row) : row.user_id = uid := by
  have := List.find?_some h
  simpa using this

/-- Query commutes with a row-wise update that preserves user ids. -/
theorem queryByUser_map (db : List OAuthToken) (uid : String)
    (f : OAuthToken → OAuthToken) (hf : ∀ r, (f r).user_id = r.user_id) :
    queryByUser (db.map f) uid = (queryByUser db uid).map f := by
  induction db with
  | nil => rfl
  | cons r rest ih =>
    by_cases hr : r.user_id = uid
    · unfold queryByUser at *
      rw [List.map_cons, List.find?_cons_of_pos, List.find?_cons_of_pos]
      · simp [hr]
      · simp [hr]
      · simp [hf, hr]
    · unfold queryByUser at *
      rw [List.map_cons, List.find?_cons_of_neg, List.find?_cons_of_neg]
      · exact ih
      · simp [hr]
      · simp [hf, hr]

/-- Reading back the key just written into the counter table. -/
theorem getCounter_setCounter_self (cs : RateLimit.Counters) (key : RateLimit.RateKey)
    (v : Int × Int) : RateLimit.getCounter (RateLimit.setCounter cs key v) key = some v := by
  induction cs with
  | nil => simp [RateLimit.setCounter, RateLimit.getCounter]
  | cons e rest ih =>
    by_cases he : e.1 = key
    · simp [RateLimit.setCounter, RateLimit.getCounter, he]
    · simp only [RateLimit.setCounter, if_neg he]
      unfold RateLimit.getCounter at *
      rw [List.find?_cons_of_neg]
      · exact ih
      · simp [he]

/-- Inversion of a successful refresh call: the configuration check and the
truthiness check passed, the HTTP outcome was a 200 response, and the
result fields come from its JSON body with the skewed expiry. -/
theorem refresh_access_token_ok_inv {cfg : Bool} {rt : Option String}
    {outcome : GoogleOAuth.HttpOutcome} {now : Int} {new : GoogleOAuth.RefreshedTokens}
    (h : GoogleOAuth.refresh_access_token cfg rt outcome now = .ok new) :
    cfg = true ∧ strTruthy rt = true ∧
      ∃ j, outcome = .ok j ∧
        new = { access_token := j.access_token
                expires_at := GoogleOAuth.computeExpiresAt now (j.expires_in.getD 0)
                scope := j.scope } := by
  cases cfg with
  | false => simp [GoogleOAuth.refresh_access_token] at h
  | true =>
    cases hrt : strTruthy rt with
    | false => simp [GoogleOAuth.refresh_access_token, hrt] at h
    | true =>
      cases outcome with
      | err s => simp [GoogleOAuth.refresh_access_token, hrt] at h
      | ok j =>
        simp only [GoogleOAuth.refresh_access_token, hrt, Bool.not_true,
          Bool.false_eq_true, if_false, Except.ok.injEq] at h
        exact ⟨rfl, rfl, j, rfl, h.symm⟩

/-- The hardened TTL of create_state is at least the 30-second floor. -/
theorem hardenedTtl_ge (t : State.TtlArg) : 30 ≤ State.hardenedTtl t := by
  cases t <;> simp only [State.hardenedTtl] <;> split <;> omega

open State in
/-- Acceptance of a well-signed three-segment token: the signature check
passes by recomputation, the payload decodes, and every payload check
succeeds, so the payload is returned.  The header segment is arbitrary. -/
theorem verify_state_accepts (key : String) (hseg : Seg) (pl : StatePayload)
    (now leeway : Int) (hp : pl.p = "google_oauth") (hiat : pl.iat - now ≤ leeway)
    (hexp : now - pl.exp ≤ leeway) (hu : pl.u ≠ "") :
    verify_state key [hseg, Seg.enc pl, Seg.sig key hseg (Seg.enc pl)] now leeway
      = .ok pl := by
  simp only [verify_state, decPayload]
  rw [if_neg (by simp), if_neg (by simp [hp]), if_neg (by omega), if_neg (by omega),
    if_neg hu]

open State in
/-- C9: verification never inspects the header segment's content: for any
header segment whatsoever, a three-segment token whose signature is valid
over header.payload and whose payload passes the purpose, iat/exp and
user_id checks is accepted, returning that payload. -/
theorem verify_state_ignores_header (key : String) (hseg : Seg) (pl : StatePayload)
    (now leeway : Int) (hp : pl.p = "google_oauth") (hiat : pl.iat - now ≤ leeway)
    (hexp : now - pl.exp ≤ leeway) (hu : pl.u ≠ "") :
    verify_state key [hseg, Seg.enc pl, Seg.sig key hseg (Seg.enc pl)] now leeway
      = .ok pl :=
  verify_state_accepts key hseg pl now leeway hp hiat hexp hu

open State in
/-- C9 witness: a junk header segment that is not base64url JSON at all is
accepted when the signature and payload are in order. -/
theorem verify_state_ignores_header_witness :
    (("google_oauth" : String) = "google_oauth" ∧ ((0 : Int) - 50 ≤ 5) ∧
      ((50 : Int) - 100 ≤ 5) ∧ ("alice" : String) ≠ "") ∧
    verify_state "K" [Seg.raw "not-a-json-header",
        Seg.enc { u := "alice", p := "google_oauth", iat := 0, exp := 100, n := "N" },
        Seg.sig "K" (Seg.raw "not-a-json-header")
          (Seg.enc { u := "alice", p := "google_oauth", iat := 0, exp := 100, n := "N" })]
      50 5 = .ok { u := "alice", p := "google_oauth", iat := 0, exp := 100, n := "N" } :=
  ⟨⟨rfl, by decide, by decide, by decide⟩,
    verify_state_ignores_header "K" (Seg.raw "not-a-json-header")
      { u := "alice", p := "google_oauth", iat := 0, exp := 100, n := "N" } 50 5 rfl
      (by decide) (by decide) (by decide)⟩

open State in
/-- C4 counterexample: for the empty user_id string, create_state raises
the user_id-required error instead of returning a token, so the immediate
round trip does not succeed for every user_id string. -/
theorem create_state_empty_user_rejected :
    create_state "K" "" (.int 300) 0 "N" = .error .userIdRequired := rfl

open State in
/-- C4 (amended): for every non-empty user_id and every ttl argument,
verifying a freshly created state at the same clock time succeeds and
returns a payload whose user_id field is the one passed to create_state. -/
theorem state_round_trip (key uid : String) (t : TtlArg) (now : Int) (nonce : String)
    (hu : uid ≠ "") :
    ∃ tok payload, create_state key uid t now nonce = .ok tok ∧
      verify_state key tok now 5 = .ok payload ∧ payload.u = uid := by
  refine ⟨[Seg.raw headerJson,
      Seg.enc ⟨uid, "google_oauth", now, now + hardenedTtl t, nonce⟩,
      Seg.sig key (Seg.raw headerJson)
        (Seg.enc ⟨uid, "google_oauth", now, now + hardenedTtl t, nonce⟩)],
    ⟨uid, "google_oauth", now, now + hardenedTtl t, nonce⟩, ?_, ?_, rfl⟩
  · simp only [create_state, if_neg hu]
  · exact verify_state_accepts key (Seg.raw headerJson)
      { u := uid, p := "google_oauth", iat := now, exp := now + hardenedTtl t, n := nonce }
      now 5 rfl (show now - now ≤ 5 by omega)
      (show now - (now + hardenedTtl t) ≤ 5 by have := hardenedTtl_ge t; omega) hu

open State in
/-- C4 witness: the round trip at a concrete non-empty user_id. -/
theorem state_round_trip_witness :
    (("alice" : String) ≠ "") ∧
    (∃ tok payload, create_state "K" "alice" (.int 300) 1000 "N" = .ok tok ∧
      verify_state "K" tok 1000 5 = .ok payload ∧ payload.u = "alice") :=
  ⟨by decide, state_round_trip "K" "alice" (.int 300) 1000 "N" (by decide)⟩

open State in
/-- C7: create_state clamps the effective ttl to a 30-second floor: for
every ttl argument (small, negative or non-integer-coercible) the created
payload has iat = now and exp = now + hardenedTtl, and exp is at least
iat + 30. -/
theorem create_state_ttl_floor (key uid : String) (t : TtlArg) (now : Int)
    (nonce : String) (hu : uid ≠ "") :
    create_state key uid t now nonce =
      .ok [Seg.raw headerJson,
        Seg.enc { u := uid, p := "google_oauth", iat := now, exp := now + hardenedTtl t,
                  n := nonce },
        Seg.sig key (Seg.raw headerJson)
          (Seg.enc { u := uid, p := "google_oauth", iat := now,
                     exp := now + hardenedTtl t, n := nonce })] ∧
    now + 30 ≤ now + hardenedTtl t := by
  constructor
  · simp only [create_state, if_neg hu]
  · have := hardenedTtl_ge t
    omega

open State in
/-- C7 witness: a ttl of 5 seconds is clamped so that exp = iat + 30. -/
theorem create_state_ttl_floor_witness :
    (("alice" : String) ≠ "") ∧
    (create_state "K" "alice" (.int 5) 100 "N" =
      .ok [Seg.raw headerJson,
        Seg.enc { u := "alice", p := "google_oauth", iat := 100, exp := 100 + hardenedTtl (.int 5),
                  n := "N" },
        Seg.sig "K" (Seg.raw headerJson)
          (Seg.enc { u := "alice", p := "google_oauth", iat := 100,
                     exp := 100 + hardenedTtl (.int 5), n := "N" })] ∧
      (100 : Int) + 30 ≤ 100 + hardenedTtl (.int 5)) :=
  ⟨by decide, create_state_ttl_floor "K" "alice" (.int 5) 100 "N" (by decide)⟩

open State in
/-- C8: for a token created by create_state and verified with the same
key, verification fails with the Expired error exactly when now - exp
exceeds the leeway; within exp + leeway it never fails on expiry grounds. -/
theorem verify_state_expired_iff (key uid : String) (t : TtlArg) (t0 : Int)
    (nonce : String) (tok : List Seg) (now leeway : Int)
    (hu : uid ≠ "") (hl : 0 ≤ leeway)
    (hc : create_state key uid t t0 nonce = .ok tok) :
    verify_state key tok now leeway = .error .expired ↔
      now - (t0 + hardenedTtl t) > leeway := by
  simp only [create_state, if_neg hu, Except.ok.injEq] at hc
  subst hc
  have hT30 : 30 ≤ hardenedTtl t := hardenedTtl_ge t
  simp only [verify_state, decPayload]
  rw [if_neg (by simp), if_neg (by simp)]
  by_cases hfut : t0 - now > leeway
  · rw [if_pos hfut]
    constructor
    · intro h; simp at h
    · intro h; omega
  · rw [if_neg hfut]
    by_cases hexp : now - (t0 + hardenedTtl t) > leeway
    · rw [if_pos hexp]
      simp [hexp]
    · rw [if_neg hexp, if_neg hu]
      simp [hexp]

open State in
/-- C8 witness: a state with ttl 30 created at time 0 and verified at time
30 + 5 + 1 = 36 with the default leeway 5 fails with the Expired error. -/
theorem verify_state_expired_iff_witness :
    (("alice" : String) ≠ "" ∧ (0 : Int) ≤ 5 ∧
      create_state "K" "alice" (.int 30) 0 "N" =
        .ok [Seg.raw headerJson,
          Seg.enc { u := "alice", p := "google_oauth", iat := 0, exp := 30, n := "N" },
          Seg.sig "K" (Seg.raw headerJson)
            (Seg.enc { u := "alice", p := "google_oauth", iat := 0, exp := 30, n := "N" })]) ∧
    verify_state "K"
        [Seg.raw headerJson,
          Seg.enc { u := "alice", p := "google_oauth", iat := 0, exp := 30, n := "N" },
          Seg.sig "K" (Seg.raw headerJson)
            (Seg.enc { u := "alice", p := "google_oauth", iat := 0, exp := 30, n := "N" })]
        36 5 = .error .expired :=
  ⟨⟨by decide, by decide, rfl⟩,
    (verify_state_expired_iff "K" "alice" (.int 30) 0 "N" _ 36 5 (by decide) (by decide)
      rfl).mpr (by decide)⟩

open RateLimit in
/-- C5: the limiter is a fixed-window counter per key: after any bump the
stored window start is now - (now mod window), and a stored counter whose
window start differs from the computed one is reset to a fresh count of 1;
with limit 2 and window 60, three calls in the same window give success,
success, then a 429 carrying the seconds remaining until the next window
boundary (here 30), and a fourth call after the boundary succeeds again. -/
theorem rate_limit_fixed_window :
    (∀ (cs : Counters) (key : RateKey) (m w now start count : Int),
        getCounter cs key = some (start, count) → start ≠ now - now % w →
        getCounter (bump cs key m w now).1 key = some (now - now % w, 1)) ∧
    ((bump [] ["key", "k"] 2 60 10).2 = none ∧
     (bump (bump [] ["key", "k"] 2 60 10).1 ["key", "k"] 2 60 20).2 = none ∧
     (bump (bump (bump [] ["key", "k"] 2 60 10).1 ["key", "k"] 2 60 20).1
        ["key", "k"] 2 60 30).2 = some 30 ∧
     (bump (bump (bump (bump [] ["key", "k"] 2 60 10).1 ["key", "k"] 2 60 20).1
        ["key", "k"] 2 60 30).1 ["key", "k"] 2 60 70).2 = none) := by
  constructor
  · intro cs key m w now start count hget hne
    simp only [bump, hget, Option.getD_some]
    rw [if_pos hne]
    simp only [if_pos hne]
    split <;> exact getCounter_setCounter_self cs key (now - now % w, 0 + 1)
  · refine ⟨rfl, rfl, rfl, rfl⟩

open RateLimit in
/-- C5 witness: a counter stored for an old window is reset by a bump in a
newer window: the stored pair becomes the new window start with count 1. -/
theorem rate_limit_fixed_window_witness :
    (getCounter [(["a"], ((0 : Int), (5 : Int)))] ["a"] = some (0, 5) ∧
      (0 : Int) ≠ 100 - 100 % 60) ∧
    getCounter (bump [(["a"], ((0 : Int), (5 : Int)))] ["a"] 2 60 100).1 ["a"]
      = some (100 - 100 % 60, 1) :=
  ⟨⟨rfl, by decide⟩,
    rate_limit_fixed_window.1 [(["a"], ((0 : Int), (5 : Int)))] ["a"] 2 60 100 0 5 rfl
      (by decide)⟩

open GoogleOAuth in
/-- C6 counterexample: a refresh response declaring a zero lifetime yields
expires_at = now (the skewed lifetime is clamped at zero), not
now + lifetime - 30 as the claim states for every response. -/
theorem refresh_expiry_skew_counterexample :
    refresh_access_token true (some "R")
        (.ok { access_token := some "A", refresh_token := none, expires_in := some 0,
               scope := none }) 1000
      = .ok { access_token := some "A", expires_at := 1000, scope := none } ∧
    ((1000 : Int) ≠ 1000 + (0 - 30)) := ⟨rfl, by decide⟩

open GoogleOAuth in
/-- C6 (amended): every successful exchange or refresh computes
expires_at = now + max(0, expires_in - 30); whenever the server-declared
lifetime is at least the 30-second skew this equals now + expires_in - 30,
and for shorter lifetimes it is clamped to now. -/
theorem token_expiry_skew (cfg red : Bool) (rt : Option String) (j : TokenJson)
    (now : Int) (newR : RefreshedTokens) (newE : ExchangedTokens)
    (hR : refresh_access_token cfg rt (.ok j) now = .ok newR)
    (hE : exchange_code_for_tokens cfg red (.ok j) now = .ok newE) :
    newR.expires_at = now + max 0 (j.expires_in.getD 0 - 30) ∧
    newE.expires_at = now + max 0 (j.expires_in.getD 0 - 30) ∧
    (30 ≤ j.expires_in.getD 0 →
      newR.expires_at = now + (j.expires_in.getD 0 - 30) ∧
      newE.expires_at = now + (j.expires_in.getD 0 - 30)) := by
  obtain ⟨-, -, j', hj', hnew⟩ := refresh_access_token_ok_inv hR
  obtain rfl : j = j' := by injection hj'
  have hRe : newR.expires_at = computeExpiresAt now (j.expires_in.getD 0) := by
    rw [hnew]
  have hEe : newE.expires_at = computeExpiresAt now (j.expires_in.getD 0) := by
    cases cfg with
    | false => simp [exchange_code_for_tokens] at hE
    | true =>
      cases red with
      | false => simp [exchange_code_for_tokens] at hE
      | true =>
        simp only [exchange_code_for_tokens, Bool.not_true, Bool.false_eq_true, if_false,
          Except.ok.injEq] at hE
        rw [← hE]
  refine ⟨?_, ?_, fun h30 => ⟨?_, ?_⟩⟩ <;>
    simp only [hRe, hEe, computeExpiresAt] <;> omega

open GoogleOAuth in
/-- C6 witness: with a declared lifetime of 3600 seconds the computed
expiry is now + 3570 on both the exchange and the refresh path. -/
theorem token_expiry_skew_witness :
    (refresh_access_token true (some "R")
        (.ok { access_token := some "A", refresh_token := none,
               expires_in := some 3600, scope := none }) 0
      = .ok { access_token := some "A", expires_at := 3570, scope := none } ∧
     exchange_code_for_tokens true true
        (.ok { access_token := some "A", refresh_token := none,
               expires_in := some 3600, scope := none }) 0
      = .ok { access_token := some "A", refresh_token := none, expires_at := 3570,
              scope := none }) ∧
    ((3570 : Int) = 0 + max 0 (3600 - 30) ∧ (3570 : Int) = 0 + max 0 (3600 - 30) ∧
      ((30 : Int) ≤ 3600 → (3570 : Int) = 0 + (3600 - 30) ∧ (3570 : Int) = 0 + (3600 - 30))) :=
  ⟨⟨rfl, rfl⟩,
    token_expiry_skew true true (some "R")
      { access_token := some "A", refresh_token := none, expires_in := some 3600,
        scope := none } 0
      { access_token := some "A", expires_at := 3570, scope := none }
      { access_token := some "A", refresh_token := none, expires_at := 3570, scope := none }
      rfl rfl⟩

/-- Staleness test of ensure_access_token as a boolean of the stored row:
true when no expiry is stored or the expiry is within the 30-second skew. -/
theorem ensure_reduce_cached {db : List OAuthToken} {uid : String} {now : Int}
    {cfg : Bool} {outcome : GoogleOAuth.HttpOutcome} {row : OAuthToken}
    (hq : queryByUser db uid = some row)
    (hNR : (match row.expires_at with
            | none => true
            | some exp => decide (exp - now ≤ 30)) = false) :
    AccessTokens.ensure_access_token db uid now cfg outcome =
      .ok (db, ⟨Crypto.decrypt_str (some row.access_token_enc), row.expires_at,
                row.scopes_json⟩) := by
  simp only [AccessTokens.ensure_access_token, hq, hNR, Bool.false_eq_true, if_false]

/-- Reduction of ensure_access_token on a stale row without a usable
refresh-token ciphertext: the reconnect-required error. -/
theorem ensure_reduce_reconnect {db : List OAuthToken} {uid : String} {now : Int}
    {cfg : Bool} {outcome : GoogleOAuth.HttpOutcome} {row : OAuthToken}
    (hq : queryByUser db uid = some row)
    (hNR : (match row.expires_at with
            | none => true
            | some exp => decide (exp - now ≤ 30)) = true)
    (hct : Crypto.ctFalsy row.refresh_token_enc = true) :
    AccessTokens.ensure_access_token db uid now cfg outcome =
      .error .reconnectRequired := by
  simp only [AccessTokens.ensure_access_token, hq, hNR, if_true, hct]

/-- Reduction of ensure_access_token on a stale row with a refresh-token
ciphertext: delegate to the refresh call and persist its result. -/
theorem ensure_reduce_refresh {db : List OAuthToken} {uid : String} {now : Int}
    {cfg : Bool} {outcome : GoogleOAuth.HttpOutcome} {row : OAuthToken}
    (hq : queryByUser db uid = some row)
    (hNR : (match row.expires_at with
            | none => true
            | some exp => decide (exp - now ≤ 30)) = true)
    (hct : Crypto.ctFalsy row.refresh_token_enc = false) :
    AccessTokens.ensure_access_token db uid now cfg outcome =
      match GoogleOAuth.refresh_access_token cfg
          (Crypto.decrypt_str row.refresh_token_enc) outcome now with
      | .error e => .error (.upstream e)
      | .ok new =>
          .ok (Tokens.upsert_tokens db uid new.access_token
                 (Crypto.decrypt_str row.refresh_token_enc) (some new.expires_at)
                 new.scope,
               ⟨new.access_token, some new.expires_at,
                AccessTokens.scopesOfRawScope new.scope⟩) := by
  simp only [AccessTokens.ensure_access_token, hq, hNR, if_true, hct,
    Bool.false_eq_true, if_false]

/-- A row-wise table update of upsert_tokens over an existing row, seen
through a subsequent query: the row comes back with the overwritten access
token, conditionally overwritten refresh token, and new expiry and scopes. -/
theorem queryByUser_upsert_update {db : List OAuthToken} {uid : String}
    {row : OAuthToken} (hq : queryByUser db uid = some row)
    (a r : Option String) (ea : Option Int) (sc : Option String) :
    queryByUser (Tokens.upsert_tokens db uid a r ea sc) uid =
      some { row with
             access_token_enc := Crypto.encrypt_str a
             refresh_token_enc :=
               if strTruthy r then some (Crypto.encrypt_str r)
               else row.refresh_token_enc
             expires_at := ea
             scopes_json := Tokens.splitScopes sc } := by
  simp only [Tokens.upsert_tokens, hq]
  rw [queryByUser_map db uid _ (fun x => by by_cases hx : x.user_id = uid <;> simp [hx]),
    hq, Option.map_some']
  rw [if_pos (queryByUser_user_id hq)]

open Tokens Crypto in
/-- C2: the claimed blank-and-retain behaviour is the documented intent
(the clear_tokens docstring and the spec's revoke contract), but the code
cannot deliver it — on a table holding a connected user the blanking
commit violates the NOT NULL constraint on access_token_enc and raises
IntegrityError instead of returning existed = true; only the never-seen
case behaves as claimed, returning existed = false. -/
theorem clear_tokens_integrity_error :
    clear_tokens [⟨"alice", .tok "A", some (.tok "R"), some 100, ["s"]⟩] "alice"
      = .error .integrityError ∧
    clear_tokens ([] : List OAuthToken) "alice" = .ok ([], false) := ⟨rfl, rfl⟩

open Tokens in
/-- C10: clear_tokens can never report an existing row as cleared — the
blanking write raises IntegrityError at commit — so its only successful
outcome is existed = false, and the post-clear state the claim feeds into
ensure_access_token (a retained row with blanked token fields) is
unreachable in the program. -/
theorem clear_tokens_never_reports_cleared (db : List OAuthToken) (uid : String)
    (p : List OAuthToken × Bool) (h : clear_tokens db uid = .ok p) :
    p.2 = false := by
  cases hq : queryByUser db uid with
  | none =>
      simp only [clear_tokens, hq, Except.ok.injEq] at h
      rw [← h]
  | some row =>
      simp [clear_tokens, hq] at h

open Tokens in
/-- C10 witness: the only successful clear, on a never-seen user, reports
existed = false. -/
theorem clear_tokens_never_reports_cleared_witness :
    (clear_tokens ([] : List OAuthToken) "bob" = .ok ([], false)) ∧
    ((([] : List OAuthToken), false).2 = false) :=
  ⟨rfl, clear_tokens_never_reports_cleared [] "bob" ([], false) rfl⟩

open Tokens GoogleOAuth AccessTokens Crypto in
/-- C3: when a stale record whose refresh ciphertext decrypts to R1 is
refreshed through a 200 response (which carries no refresh token), the
persisted row still decrypts to refresh token R1, while the access-token
ciphertext and the expiry are overwritten from the response. -/
theorem ensure_access_token_preserves_refresh_token
    (db : List OAuthToken) (uid : String) (now : Int) (cfg : Bool) (j : TokenJson)
    (row : OAuthToken) (r1 : String) (db' : List OAuthToken) (res : EnsureResult)
    (hq : queryByUser db uid = some row)
    (hr1 : decrypt_str row.refresh_token_enc = some r1)
    (hstale : row.expires_at = none ∨ ∃ e, row.expires_at = some e ∧ e - now ≤ 30)
    (h : ensure_access_token db uid now cfg (.ok j) = .ok (db', res)) :
    ∃ row', queryByUser db' uid = some row' ∧
      decrypt_str row'.refresh_token_enc = some r1 ∧
      row'.access_token_enc = encrypt_str j.access_token ∧
      row'.expires_at = some (computeExpiresAt now (j.expires_in.getD 0)) := by
  have hct : row.refresh_token_enc = some (Ciphertext.tok r1) := by
    rcases hrt : row.refresh_token_enc with _ | ct
    · rw [hrt] at hr1; simp [decrypt_str] at hr1
    · cases ct with
      | empty => rw [hrt] at hr1; simp [decrypt_str] at hr1
      | tok s =>
          rw [hrt] at hr1
          simp only [decrypt_str, Option.some.injEq] at hr1
          rw [hr1]
      | invalid s => rw [hrt] at hr1; simp [decrypt_str] at hr1
  have hNR : (match row.expires_at with
              | none => true
              | some exp => decide (exp - now ≤ 30)) = true := by
    rcases hstale with h0 | ⟨e, he, hle⟩
    · rw [h0]
    · rw [he]; exact decide_eq_true hle
  have hctF : ctFalsy row.refresh_token_enc = false := by rw [hct]; rfl
  rw [ensure_reduce_refresh hq hNR hctF, hct] at h
  cases cfg with
  | false => simp [refresh_access_token] at h
  | true =>
    by_cases hr1e : r1 = ""
    · subst hr1e
      simp [refresh_access_token, decrypt_str, strTruthy] at h
    · have hrefresh :
          refresh_access_token true (decrypt_str (some (Ciphertext.tok r1))) (.ok j) now
            = .ok ⟨j.access_token, computeExpiresAt now (j.expires_in.getD 0), j.scope⟩ := by
        simp [refresh_access_token, decrypt_str, strTruthy, hr1e]
      rw [hrefresh] at h
      injection h with h'
      obtain rfl : db' = upsert_tokens db uid j.access_token
          (decrypt_str (some (Ciphertext.tok r1)))
          (some (computeExpiresAt now (j.expires_in.getD 0))) j.scope :=
        (congrArg Prod.fst h').symm
      refine ⟨_, queryByUser_upsert_update hq j.access_token
        (decrypt_str (some (Ciphertext.tok r1)))
        (some (computeExpiresAt now (j.expires_in.getD 0))) j.scope, ?_, rfl, rfl⟩
      simp [decrypt_str, encrypt_str, strTruthy, hr1e]

open Tokens GoogleOAuth AccessTokens Crypto in
/-- C3 witness: a concrete expired record refreshed with a 3600-second
lifetime keeps refresh token R1 and stores the new access token and the
skewed expiry 100 + 3570. -/
theorem ensure_access_token_preserves_refresh_token_witness :
    (queryByUser [⟨"alice", .tok "A", some (.tok "R1"), some 0, []⟩] "alice"
        = some ⟨"alice", .tok "A", some (.tok "R1"), some 0, []⟩ ∧
      decrypt_str (some (Ciphertext.tok "R1")) = some "R1" ∧
      ((some (0 : Int) : Option Int) = none ∨
        ∃ e, (some (0 : Int) : Option Int) = some e ∧ e - 100 ≤ 30)) ∧
    (∃ row', queryByUser
        [⟨"alice", .tok "NEW", some (.tok "R1"), some 3670, []⟩] "alice"
          = some row' ∧
      decrypt_str row'.refresh_token_enc = some "R1" ∧
      row'.access_token_enc = encrypt_str (some "NEW") ∧
      row'.expires_at = some (computeExpiresAt 100 ((some (3600 : Int)).getD 0))) :=
  ⟨⟨rfl, rfl, Or.inr ⟨0, rfl, by decide⟩⟩,
    ensure_access_token_preserves_refresh_token
      [⟨"alice", .tok "A", some (.tok "R1"), some 0, []⟩] "alice" 100 true
      ⟨some "NEW", none, some 3600, none⟩
      ⟨"alice", .tok "A", some (.tok "R1"), some 0, []⟩ "R1"
      [⟨"alice", .tok "NEW", some (.tok "R1"), some 3670, []⟩]
      ⟨some "NEW", some 3670, []⟩ rfl rfl (Or.inr ⟨0, rfl, by decide⟩) rfl⟩

open GoogleOAuth AccessTokens Crypto in
/-- C1 counterexample: on the refresh path with a 200 response declaring a
zero lifetime, ensure_access_token returns successfully with
expires_at = now (here 100), which is not more than 30 seconds in the
future at the moment of return. -/
theorem ensure_access_token_skew_violation :
    ensure_access_token [⟨"alice", .tok "A", some (.tok "R1"), some 0, []⟩]
        "alice" 100 true
        (.ok ⟨some "NEW", none, some 0, none⟩)
      = .ok ([⟨"alice", .tok "NEW", some (.tok "R1"), some 100, []⟩],
             ⟨some "NEW", some 100, []⟩) ∧
    ¬ ((100 : Int) - 100 > 30) := ⟨rfl, by decide⟩

open GoogleOAuth AccessTokens in
/-- C1 (amended): a successful return either served the cached token, in
which case the table is unchanged and the returned expires_at is more than
the 30-second skew in the future, or came from the refresh path, in which
case the returned expires_at is now + max(0, expires_in - 30) from the
exchange client's response — which exceeds the skew window only when the
declared lifetime exceeds 60 seconds. -/
theorem ensure_access_token_expiry_paths (db : List OAuthToken) (uid : String)
    (now : Int) (cfg : Bool) (outcome : HttpOutcome) (db' : List OAuthToken)
    (res : EnsureResult)
    (h : ensure_access_token db uid now cfg outcome = .ok (db', res)) :
    (db' = db ∧ ∃ e, res.expires_at = some e ∧ e - now > 30) ∨
    (∃ j, outcome = .ok j ∧
      res.expires_at = some (computeExpiresAt now (j.expires_in.getD 0))) := by
  rcases hq : queryByUser db uid with _ | row
  · simp [ensure_access_token, hq] at h
  · cases hNR : (match row.expires_at with
                 | none => true
                 | some exp => decide (exp - now ≤ 30)) with
    | false =>
      rw [ensure_reduce_cached hq hNR] at h
      left
      rcases hexp : row.expires_at with _ | e
      · rw [hexp] at hNR; simp at hNR
      · rw [hexp] at hNR
        injection h with h'
        refine ⟨(congrArg Prod.fst h').symm, e, ?_, ?_⟩
        · have hres := congrArg (fun p => (p.2).expires_at) h'
          simp only at hres
          rw [← hres, hexp]
        · simp only [decide_eq_false_iff_not] at hNR
          omega
    | true =>
      cases hctF : Crypto.ctFalsy row.refresh_token_enc with
      | true =>
          rw [ensure_reduce_reconnect hq hNR hctF] at h
          simp at h
      | false =>
          rw [ensure_reduce_refresh hq hNR hctF] at h
          cases hro : refresh_access_token cfg
              (Crypto.decrypt_str row.refresh_token_enc) outcome now with
          | error e => rw [hro] at h; simp at h
          | ok new =>
            rw [hro] at h
            obtain ⟨-, -, j, hj, hnew⟩ := refresh_access_token_ok_inv hro
            right
            refine ⟨j, hj, ?_⟩
            injection h with h'
            have hres := congrArg (fun p => (p.2).expires_at) h'
            simp only at hres
            rw [← hres, hnew]

open GoogleOAuth AccessTokens Crypto in
/-- C1 witness: a fresh cached token (expiry 1000, clock 0) is served with
the table unchanged and an expiry more than the skew in the future. -/
theorem ensure_access_token_expiry_paths_witness :
    (ensure_access_token [⟨"carol", .tok "A", none, some 1000, []⟩] "carol" 0
        true (.err 500)
      = .ok ([⟨"carol", .tok "A", none, some 1000, []⟩],
             ⟨some "A", some 1000, []⟩)) ∧
    ((([⟨"carol", .tok "A", none, some 1000, []⟩] : List OAuthToken)
        = [⟨"carol", .tok "A", none, some 1000, []⟩] ∧
      ∃ e, (⟨some "A", some 1000, []⟩ : EnsureResult).expires_at = some e ∧
        e - 0 > 30) ∨
    (∃ j, (HttpOutcome.err 500) = .ok j ∧
      (⟨some "A", some 1000, []⟩ : EnsureResult).expires_at
        = some (computeExpiresAt 0 (j.expires_in.getD 0)))) :=
  ⟨rfl,
    ensure_access_token_expiry_paths
      [⟨"carol", .tok "A", none, some 1000, []⟩] "carol" 0 true (.err 500)
      [⟨"carol", .tok "A", none, some 1000, []⟩] ⟨some "A", some 1000, []⟩ rfl⟩

end LiaoOAuth
